import Mathlib

/-!
Shallow embedding of the MyDubList reconciliation subsystem.

Sources embedded:
* `merge_manual_and_automatic.py` — the consensus merge engine
  (`int_set`, `compute_counts`, `build_confidence_outputs`).
* `fetch_dubs_from_api.py` — the rate-limited call harness (`mal_get`),
  the adapter finalize step (`finalize_jsons`), and the per-id body of
  the MAL scan loop (`run_mal`).

Catalog ids are modelled as `ℕ`; Python sets of ids become `Finset ℕ`;
JSON arrays become `List ℕ`.
-/

namespace MyDubList

namespace Merge

/-- `int_set` from `merge_manual_and_automatic.py`: coerce a JSON array to a
set of integer ids (duplicates collapse; the int-coercion failure branch is
not modelled since inputs are already integers here). -/
def int_set (l : List ℕ) : Finset ℕ := l.toFinset

/-- The raw manual override file for one language: the three JSON arrays
`dubbed`, `not_dubbed` and the partial list (`manual.get` results). -/
structure ManualFile where
  dubbed : List ℕ
  not_dubbed : List ℕ
  part : List ℕ

/-- The per-language data `load_language_sources` returns: the three manual
sets and the list of the ten automatic providers' dubbed sets
(mal, anilist, ann, anisearch, kitsu, hianime, nsfw, kenny, animeschedule,
crunchyroll — the dict values, in insertion order). -/
structure LanguageSources where
  manual_dubbed : Finset ℕ
  manual_not_dubbed : Finset ℕ
  manual_part : Finset ℕ
  auto_sources : List (Finset ℕ)

/-- `load_language_sources`: build the per-language sets from the manual file
and the ten automatic files by applying `int_set` to each array. -/
def load_language_sources (m : ManualFile) (autos : List (List ℕ)) :
    LanguageSources :=
  { manual_dubbed := int_set m.dubbed
    manual_not_dubbed := int_set m.not_dubbed
    manual_part := int_set m.part
    auto_sources := autos.map int_set }

/-- `compute_counts`: for an id, in how many of the given source sets it
appears (the Python dict maps exactly the ids of the union to these values,
every other id having no key, i.e. count 0). -/
def compute_counts (sources : List (Finset ℕ)) (mid : ℕ) : ℕ :=
  (sources.filter (fun s => decide (mid ∈ s))).length

/-- The set of ids that get a key in the `compute_counts` dict: the union of
all source sets. -/
def counts_domain (sources : List (Finset ℕ)) : Finset ℕ :=
  sources.foldr (fun s acc => s ∪ acc) ∅

/-- `build_confidence_outputs`: `sources_for_counts = dict(auto_sources)`
followed by `sources_for_counts["manual"] = manual_dubbed` — the manual
dubbed set is appended as an eleventh counted source. -/
def sources_for_counts (info : LanguageSources) : List (Finset ℕ) :=
  info.auto_sources ++ [info.manual_dubbed]

/-- The value `counts[mid]` holds for any id that has a key (deleting the
`not_dubbed` keys does not change the values of the remaining keys). -/
def supportCount (info : LanguageSources) (mid : ℕ) : ℕ :=
  compute_counts (sources_for_counts info) mid

/-- The key set of `counts` after the `not_dubbed` deletion loop. -/
def counts_keys (info : LanguageSources) : Finset ℕ :=
  counts_domain (sources_for_counts info) \ info.manual_not_dubbed

/-- `manual_partial = manual_partial - manual_not_dubbed` (the reassignment
before the counts document and the tier outputs are written). -/
def part_out (info : LanguageSources) : Finset ℕ :=
  info.manual_part \ info.manual_not_dubbed

/-- The counts document body: one entry per remaining key, ascending,
mapping the id (stringified in the JSON) to its stored count. -/
def counts_out (info : LanguageSources) : List (ℕ × ℕ) :=
  ((counts_keys info).sort (· ≤ ·)).map (fun mid => (mid, supportCount info mid))

/-- The `partial` field of the counts document and of every tier output:
`sorted(manual_partial)` after the reassignment. -/
def part_list (info : LanguageSources) : List ℕ :=
  (part_out info).sort (· ≤ ·)

/-- `CONFIDENCE_LEVELS`: the tier names and thresholds. -/
def CONFIDENCE_LEVELS : List (String × ℕ) :=
  [("low", 1), ("normal", 2), ("high", 3), ("very-high", 4)]

/-- Per tier: `candidates = {mid for mid, c in counts.items() if c >= threshold}`
over the overridden counts dict. -/
def candidates (info : LanguageSources) (threshold : ℕ) : Finset ℕ :=
  (counts_keys info).filter (fun mid => threshold ≤ supportCount info mid)

/-- Per tier: `final_dubbed = (manual_dubbed | candidates) - manual_not_dubbed
- manual_partial` (with `manual_partial` already reassigned). -/
def final_dubbed (info : LanguageSources) (threshold : ℕ) : Finset ℕ :=
  ((info.manual_dubbed ∪ candidates info threshold) \ info.manual_not_dubbed) \
    part_out info

/-- The `dubbed` array of a tier output document: `sorted(final_dubbed)`. -/
def dubbed_list (info : LanguageSources) (threshold : ℕ) : List ℕ :=
  (final_dubbed info threshold).sort (· ≤ ·)

/-- Scenario A of the spec: Provider1 = {100,200}, Provider2 = {200,300},
the other eight providers empty, manual `not_dubbed=[300]`, `dubbed=[400]`,
empty partial list, for language english. -/
def scenA : LanguageSources :=
  load_language_sources ⟨[400], [300], []⟩
    ([[100, 200], [200, 300]] ++ List.replicate 8 [])

/-- Manual-only input: every provider set empty, manual `dubbed=[400]`. -/
def infoManualOnly : LanguageSources :=
  load_language_sources ⟨[400], [], []⟩ (List.replicate 10 [])

/-- Input where id 300 is both a provider assertion and in both manual
exclusion lists. -/
def infoPartClash : LanguageSources :=
  load_language_sources ⟨[], [300], [300]⟩ ([[300]] ++ List.replicate 9 [])

/-- Input where id 7 is in both the manual dubbed and not_dubbed lists. -/
def infoBothLists : LanguageSources :=
  load_language_sources ⟨[7], [7], []⟩ (List.replicate 10 [])

lemma sort_eq_of_sorted_nodup (s : Finset ℕ) (l : List ℕ)
    (hs : l.Sorted (· ≤ ·)) (hn : l.Nodup) (hm : l.toFinset = s) :
    s.sort (· ≤ ·) = l := by
  subst hm
  exact (List.toFinset_sort (· ≤ ·) hn).mpr hs

lemma compute_counts_append (xs : List (Finset ℕ)) (m : Finset ℕ) (mid : ℕ) :
    compute_counts (xs ++ [m]) mid =
      compute_counts xs mid + (if mid ∈ m then 1 else 0) := by
  unfold compute_counts
  rw [List.filter_append, List.length_append]
  congr 1
  by_cases h : mid ∈ m <;> simp [List.filter, h]

lemma candidates_anti (info : LanguageSources) {t t' : ℕ} (h : t ≤ t') :
    candidates info t' ⊆ candidates info t := by
  intro x hx
  simp only [candidates, Finset.mem_filter] at hx ⊢
  exact ⟨hx.1, le_trans h hx.2⟩

lemma final_dubbed_anti (info : LanguageSources) {t t' : ℕ} (h : t ≤ t') :
    final_dubbed info t' ⊆ final_dubbed info t := by
  intro x hx
  simp only [final_dubbed, Finset.mem_sdiff, Finset.mem_union] at hx ⊢
  obtain ⟨⟨hin, hnd⟩, hp⟩ := hx
  refine ⟨⟨?_, hnd⟩, hp⟩
  rcases hin with h1 | h2
  · exact Or.inl h1
  · exact Or.inr (candidates_anti info h h2)

/-- C1 counterexample: with every provider set empty and manual
`dubbed=[400]`, the engine stores count 1 for id 400 (the manual dubbed set
is an eleventh entry of `sources_for_counts`), while the claim demands
SupportCount 0 for an id found in no provider's set. -/
theorem manual_vote_counted_cex :
    supportCount infoManualOnly 400 = 1 ∧
      compute_counts infoManualOnly.auto_sources 400 = 0 := by
  decide

/-- C1 (amended): the count the merge engine stores for an id equals the
number of automatic providers whose set contains it, plus one when the id is
in the manual dubbed list — the manual source is counted as a vote; an id
only in the manual dubbed list gets count 1, not 0. -/
theorem supportCount_providers_plus_manual (info : LanguageSources) (mid : ℕ) :
    supportCount info mid =
      compute_counts info.auto_sources mid +
        (if mid ∈ info.manual_dubbed then 1 else 0) :=
  compute_counts_append info.auto_sources info.manual_dubbed mid

/-- C3: on Scenario A (Provider1 = {100,200}, Provider2 = {200,300}, manual
`not_dubbed=[300]`, `dubbed=[400]`, everything else empty), the tier output
for threshold 2 (`normal`) is exactly [200, 400] and for threshold 1 (`low`)
is exactly [100, 200, 400]. -/
theorem scenario_a_tier_outputs :
    dubbed_list scenA 2 = [200, 400] ∧
      dubbed_list scenA 1 = [100, 200, 400] ∧
      ("normal", 2) ∈ CONFIDENCE_LEVELS ∧ ("low", 1) ∈ CONFIDENCE_LEVELS := by
  refine ⟨?_, ?_, by decide, by decide⟩
  · exact sort_eq_of_sorted_nodup _ _ (by decide) (by decide) (by decide)
  · exact sort_eq_of_sorted_nodup _ _ (by decide) (by decide) (by decide)

/-- C5: for any fixed per-language inputs, the four tier output sets nest:
very-high (threshold 4) ⊆ high (3) ⊆ normal (2) ⊆ low (1). -/
theorem tier_outputs_nest (info : LanguageSources) :
    final_dubbed info 4 ⊆ final_dubbed info 3 ∧
      final_dubbed info 3 ⊆ final_dubbed info 2 ∧
      final_dubbed info 2 ⊆ final_dubbed info 1 :=
  ⟨final_dubbed_anti info (by norm_num),
    final_dubbed_anti info (by norm_num),
    final_dubbed_anti info (by norm_num)⟩

/-- C6: an id in the manual not_dubbed set appears in no tier's dubbed array
and not in the partial array either, whatever the providers assert and even
if it is also in the manual dubbed set. -/
theorem not_dubbed_excluded (info : LanguageSources) (t mid : ℕ)
    (h : mid ∈ info.manual_not_dubbed) :
    mid ∉ dubbed_list info t ∧ mid ∉ part_list info := by
  constructor
  · intro hmem
    have hf : mid ∈ final_dubbed info t := (Finset.mem_sort _).mp hmem
    simp only [final_dubbed, Finset.mem_sdiff] at hf
    exact hf.1.2 h
  · intro hmem
    have hf : mid ∈ part_out info := (Finset.mem_sort _).mp hmem
    simp only [part_out, Finset.mem_sdiff] at hf
    exact hf.2 h

/-- C6 witness: id 7 is in both manual lists of `infoBothLists`; it is absent
from the normal tier's dubbed array and from the partial array. -/
theorem not_dubbed_excluded_witness :
    7 ∉ dubbed_list infoBothLists 2 ∧ 7 ∉ part_list infoBothLists :=
  not_dubbed_excluded infoBothLists 2 7 (by decide)

/-- C7 counterexample: with Provider1 = {300}, manual partial list `[300]`
and `not_dubbed=[300]`, the emitted counts document has no key at all for id
300 (deleted by the not_dubbed override) even though 300 appears in a
contributing set, and its partial field is `[]`, not the verbatim manual
partial list `[300]`. -/
theorem counts_doc_cex :
    counts_out infoPartClash = [] ∧
      part_list infoPartClash = [] ∧
      300 ∈ counts_domain (sources_for_counts infoPartClash) ∧
      infoPartClash.manual_part = {300} ∧ ([] : List ℕ) ≠ [300] := by
  refine ⟨?_, ?_, by decide, by decide, by decide⟩
  · have hk : counts_keys infoPartClash = ∅ := by decide
    simp [counts_out, hk]
  · exact sort_eq_of_sorted_nodup _ _ (by decide) (by decide) (by decide)

/-- C7 (amended): the counts document has one key per id that appears in some
contributing set (the ten providers plus manual dubbed) and is not in the
manual not_dubbed set; each key maps to the stored count of that id; the
partial field lists exactly the manual partial ids that are not in
not_dubbed, sorted ascending. -/
theorem counts_doc_contents :
    (∀ info : LanguageSources, ∀ mid : ℕ,
        mid ∈ (counts_out info).map Prod.fst ↔
          mid ∈ counts_domain (sources_for_counts info) ∧
            mid ∉ info.manual_not_dubbed)
    ∧ (∀ info : LanguageSources, ∀ p : ℕ × ℕ,
        p ∈ counts_out info → p.2 = supportCount info p.1)
    ∧ (∀ info : LanguageSources, ∀ mid : ℕ,
        mid ∈ part_list info ↔
          mid ∈ info.manual_part ∧ mid ∉ info.manual_not_dubbed) := by
  refine ⟨fun info mid => ?_, fun info p hp => ?_, fun info mid => ?_⟩
  · rw [show (counts_out info).map Prod.fst = (counts_keys info).sort (· ≤ ·) by
      simp [counts_out, Function.comp_def]]
    rw [Finset.mem_sort, counts_keys, Finset.mem_sdiff]
  · simp only [counts_out, List.mem_map] at hp
    obtain ⟨mid, _, rfl⟩ := hp
    rfl
  · rw [part_list, Finset.mem_sort, part_out, Finset.mem_sdiff]

/-- C7 witness: id 400 of Scenario A (present in the manual dubbed list, not
excluded) has a key in the counts document. -/
theorem counts_doc_contents_witness :
    400 ∈ (counts_out scenA).map Prod.fst :=
  (counts_doc_contents.1 scenA 400).mpr (by decide)

/-- C10: in every tier output document the dubbed array and the partial array
are each sorted ascending with no duplicates, and no id occurs in both. -/
theorem tier_doc_sorted_disjoint (info : LanguageSources) (t : ℕ) :
    (dubbed_list info t).Sorted (· ≤ ·) ∧ (dubbed_list info t).Nodup ∧
      (part_list info).Sorted (· ≤ ·) ∧ (part_list info).Nodup ∧
      ∀ mid, mid ∈ dubbed_list info t → mid ∉ part_list info := by
  refine ⟨Finset.sort_sorted _ _, Finset.sort_nodup _ _,
    Finset.sort_sorted _ _, Finset.sort_nodup _ _, fun mid hmem hmem' => ?_⟩
  have hf : mid ∈ final_dubbed info t := (Finset.mem_sort _).mp hmem
  have hp : mid ∈ part_out info := (Finset.mem_sort _).mp hmem'
  simp only [final_dubbed, Finset.mem_sdiff] at hf
  exact hf.2 hp

/-- C10 witness: id 200 is in Scenario A's low-tier dubbed array, hence not
in its partial array. -/
theorem tier_doc_sorted_disjoint_witness : 200 ∉ part_list scenA := by
  apply (tier_doc_sorted_disjoint scenA 1).2.2.2.2 200
  exact (Finset.mem_sort _).mpr (by decide)

end Merge

namespace Fetch

/-- `CALL_RETRIES` from `fetch_dubs_from_api.py`. -/
def CALL_RETRIES : ℕ := 4

/-- `RETRY_DELAYS` from `fetch_dubs_from_api.py`. -/
def RETRY_DELAYS : List ℕ := [10, 60, 120]

/-- What one HTTP request inside `mal_get` can come back as: a 404, a 429
whose `Retry-After` header is a parsed integer or absent/unparsable, any
exception-raising outcome (transport error, bad status, invalid JSON), or a
valid success payload. -/
inductive MalResponse
  | notFound
  | rateLimited (retryAfter : Option ℕ)
  | transientErr
  | ok
deriving DecidableEq

/-- How a `mal_get` call ends: return the payload, return `None` (404),
`raise last_exception` with a recorded exception, or `raise last_exception`
while it is still `None` (every attempt was a 429). -/
inductive CallOutcome
  | success
  | permanentMiss
  | raised
  | raisedNone
deriving DecidableEq

/-- Observable behaviour of one `mal_get` call: its outcome, the list of
retry sleeps performed (in order), and the number of HTTP requests issued. -/
structure CallTrace where
  outcome : CallOutcome
  sleeps : List ℕ
  requests : ℕ
deriving DecidableEq

/-- `RETRY_DELAYS[min(attempt, len(RETRY_DELAYS)-1)]`: the fallback delay
used for a 429 without a usable `Retry-After`. -/
def fallback_delay (attempt : ℕ) : ℕ :=
  RETRY_DELAYS.getD (min attempt (RETRY_DELAYS.length - 1)) 0

/-- The retry loop of `mal_get` (`jikan_get` has the identical structure):
`for attempt in range(CALL_RETRIES)`, with 404 returning `None` at once,
429 sleeping then `continue` (which advances the same `attempt` counter),
any exception recording `last_exception`, sleeping `RETRY_DELAYS[attempt]`
unless it was the final attempt, and success returning the payload; after
the loop, `raise last_exception`. `responses attempt` is the outcome of the
request issued on that loop iteration; `fuel` is the number of iterations
left. -/
def mal_get_aux (responses : ℕ → MalResponse) :
    ℕ → ℕ → Bool → CallTrace
  | 0, _, hasExc => ⟨if hasExc then .raised else .raisedNone, [], 0⟩
  | fuel + 1, attempt, hasExc =>
    match responses attempt with
    | .notFound => ⟨.permanentMiss, [], 1⟩
    | .ok => ⟨.success, [], 1⟩
    | .rateLimited ra =>
      let d := ra.getD (fallback_delay attempt)
      let rest := mal_get_aux responses fuel (attempt + 1) hasExc
      ⟨rest.outcome, d :: rest.sleeps, rest.requests + 1⟩
    | .transientErr =>
      let ds := if attempt < CALL_RETRIES - 1
        then [RETRY_DELAYS.getD attempt 0] else []
      let rest := mal_get_aux responses fuel (attempt + 1) true
      ⟨rest.outcome, ds ++ rest.sleeps, rest.requests + 1⟩

/-- One full `mal_get` call: the loop starts at attempt 0 with
`last_exception = None` and at most `CALL_RETRIES` iterations. -/
def mal_get (responses : ℕ → MalResponse) : CallTrace :=
  mal_get_aux responses CALL_RETRIES 0 false

/-- Response sequence: every request is answered 429 with `Retry-After: 5`. -/
def fourRateLimited : ℕ → MalResponse := fun _ => .rateLimited (some 5)

/-- Response sequence: a 429 first, then only transient errors up to the
budget, then a success that the loop never reaches. -/
def rlThenTransients : ℕ → MalResponse := fun n =>
  if n = 0 then .rateLimited (some 5)
  else if n ≤ 3 then .transientErr else .ok

/-- Response sequence of spec Scenario B: 429 with `Retry-After: 5` on the
first attempt, success on the second. -/
def rlThenSuccess : ℕ → MalResponse := fun n =>
  if n = 0 then .rateLimited (some 5) else .ok

/-- `finalize_jsons` per language: only ids checked this run and no longer
present may be removed. -/
def removal_candidates (existing checked found : Finset ℕ) : Finset ℕ :=
  (existing ∩ checked) \ found

/-- `finalize_jsons` per language: the new persisted dubbed set. -/
def updated_ids (existing checked found : Finset ℕ) : Finset ℕ :=
  (existing \ removal_candidates existing checked found) ∪ found

/-- Result of `process_anime_mal` for one id: `True` (a 404, permanent miss),
`False` (processed with a reliable result), `None` (transient failure). -/
inductive Verdict
  | was404
  | processedOk
  | transientFail
deriving DecidableEq

/-- The `run_mal` per-id mutable state: the `missing_mal_ids` cache, the
`consecutive_404` counter and this run's `checked_ok_ids`. -/
structure ScanState where
  missing : Finset ℕ
  consecutive404 : ℕ
  checked : Finset ℕ
deriving DecidableEq

/-- The body of `run_mal`'s loop for one `mal_id`, given the high-water mark
`hwm` (`largest_known_mal_id`, 0 when unavailable) and `oracle`, the result
`process_anime_mal` would return for an id. Returns the new state and
whether `process_anime_mal` (the Call Harness chain) was invoked. The
early-stop comparison against `MAX_CONSECUTIVE_404` reads the returned
counter and is outside this step. -/
def mal_scan_step (hwm : ℕ) (oracle : ℕ → Verdict) (st : ScanState)
    (mal_id : ℕ) : ScanState × Bool :=
  if hwm ≠ 0 ∧ mal_id ≤ hwm ∧ mal_id ∈ st.missing then
    ({ st with consecutive404 := st.consecutive404 + 1 }, false)
  else
    match oracle mal_id with
    | .transientFail => ({ st with consecutive404 := 0 }, true)
    | .was404 =>
      ({ missing := insert mal_id st.missing,
         consecutive404 := st.consecutive404 + 1,
         checked := insert mal_id st.checked }, true)
    | .processedOk =>
      ({ st with checked := insert mal_id st.checked,
                 consecutive404 := 0 }, true)

/-- Oracle that always reports a transient failure. -/
def orT : ℕ → Verdict := fun _ => .transientFail

/-- A scan state with three consecutive misses recorded. -/
def st3 : ScanState := ⟨∅, 3, ∅⟩

/-- Oracle that always reports a processed id. -/
def orP : ℕ → Verdict := fun _ => .processedOk

/-- A scan state whose missing-id cache holds id 4. -/
def stM : ScanState := ⟨{4}, 0, ∅⟩

/-- C2 counterexample: with an empty previous set, empty CheckedSet and
found set {5}, finalize outputs {5} — id 5 is not in CheckedSet yet its
membership changes from absent to present, so ids outside CheckedSet do not
always keep their prior membership unchanged. -/
theorem finalize_changes_unchecked_cex :
    updated_ids ∅ ∅ {5} = {5} ∧ (5 : ℕ) ∉ (∅ : Finset ℕ) := by decide

/-- C2 (amended): finalize computes
`(old − (old ∩ CheckedSet − found)) ∪ found`; an id is dropped only if it
was in CheckedSet and not rediscovered; an id not in CheckedSet — such as
one with a TransientlyFailed verdict — is never dropped, though it is added
when found this run; every found id ends up present. -/
theorem finalize_removal_rule (e c f : Finset ℕ) (x : ℕ) :
    updated_ids e c f = (e \ ((e ∩ c) \ f)) ∪ f
    ∧ (x ∈ e → x ∉ updated_ids e c f → x ∈ c ∧ x ∉ f)
    ∧ (x ∉ c → x ∈ e → x ∈ updated_ids e c f)
    ∧ (x ∈ f → x ∈ updated_ids e c f) := by
  refine ⟨rfl, ?_, ?_, ?_⟩ <;>
    simp only [updated_ids, removal_candidates, Finset.mem_union,
      Finset.mem_sdiff, Finset.mem_inter, not_and, not_not] <;> tauto

/-- C2 witness (the safe-removal negative): id 7 is in the previous set and
not in CheckedSet (transient this run), and is still present after
finalize. -/
theorem finalize_removal_rule_witness : 7 ∈ updated_ids {7} ∅ ∅ :=
  (finalize_removal_rule {7} ∅ ∅ 7).2.2.1 (by decide) (by decide)

/-- C4 counterexample: a 429 retry consumes the shared 4-attempt budget. On
`rlThenTransients` (one 429 then transient errors, a success waiting at the
fifth request) the call raises after exactly 4 requests — only 3 transient
attempts were possible after the 429, so the success is never reached; and
on `fourRateLimited` the loop stops after 4 requests with
`raise last_exception` while `last_exception` is still `None`, so a 429 on
the final attempt is not retried either. -/
theorem rate_limit_consumes_budget_cex :
    (mal_get rlThenTransients).outcome = .raised ∧
      (mal_get rlThenTransients).requests = 4 ∧
      rlThenTransients 4 = .ok ∧
      (mal_get fourRateLimited).outcome = .raisedNone ∧
      (mal_get fourRateLimited).requests = 4 := by decide

/-- C4 (amended): a rate-limited response is retried while loop attempts
remain, sleeping exactly the server-supplied Retry-After delay when present
(otherwise the fallback delay indexed by attempt), but the retry consumes
one of the 4 shared loop attempts; a call rate-limited on attempt 1 that
succeeds on attempt 2 is classified Success after 2 requests and one sleep
of the server-supplied delay. -/
theorem rate_limited_then_success (responses : ℕ → MalResponse)
    (r : Option ℕ) (h0 : responses 0 = .rateLimited r)
    (h1 : responses 1 = .ok) :
    mal_get responses = ⟨.success, [r.getD (fallback_delay 0)], 2⟩ := by
  unfold mal_get CALL_RETRIES
  simp [mal_get_aux, h0, h1]

/-- C4 witness (spec Scenario B): 429 with Retry-After 5 on the first
attempt, success on the second: outcome Success, one 5-second sleep, two
requests. -/
theorem rate_limited_then_success_witness :
    mal_get rlThenSuccess = ⟨.success, [5], 2⟩ := by
  have h := rate_limited_then_success rlThenSuccess (some 5)
    (by decide) (by decide)
  simpa using h

/-- C8: during a MAL scan, an id with a positive value at most the
high-water mark that is already in the missing-id cache is skipped without
any Call Harness invocation. -/
theorem cached_skip_no_harness_call (hwm : ℕ) (oracle : ℕ → Verdict)
    (st : ScanState) (mal_id : ℕ) (h1 : 0 < mal_id) (h2 : mal_id ≤ hwm)
    (h3 : mal_id ∈ st.missing) :
    (mal_scan_step hwm oracle st mal_id).2 = false := by
  rw [mal_scan_step, if_pos ⟨by omega, h2, h3⟩]

/-- C8 witness: id 4 is cached as missing with high-water mark 10; the scan
step issues no harness call for it. -/
theorem cached_skip_no_harness_call_witness :
    (mal_scan_step 10 orP stM 4).2 = false :=
  cached_skip_no_harness_call 10 orP stM 4 (by decide) (by decide) (by decide)

/-- C9 counterexample: from a state with consecutive-miss counter 3, a
TransientlyFailed verdict leaves the counter at 0, not at its prior value —
the transient id resets the counter rather than being excluded from it. -/
theorem transient_resets_counter_cex :
    st3.consecutive404 = 3 ∧
      (mal_scan_step 0 orT st3 1).1.consecutive404 = 0 ∧ (3 : ℕ) ≠ 0 := by
  decide

/-- C9 (amended): an id whose verdict is TransientlyFailed (and which was
not skipped via the missing-id cache) is excluded from CheckedSet and leaves
the missing-id cache untouched, but the consecutive-miss counter is reset to
0 rather than left unchanged. -/
theorem transient_excluded_from_checked (hwm : ℕ) (oracle : ℕ → Verdict)
    (st : ScanState) (mal_id : ℕ) (h : oracle mal_id = .transientFail)
    (hns : ¬(hwm ≠ 0 ∧ mal_id ≤ hwm ∧ mal_id ∈ st.missing)) :
    (mal_scan_step hwm oracle st mal_id).1.checked = st.checked ∧
      (mal_scan_step hwm oracle st mal_id).1.missing = st.missing ∧
      (mal_scan_step hwm oracle st mal_id).1.consecutive404 = 0 := by
  rw [mal_scan_step, if_neg hns, h]
  exact ⟨rfl, rfl, rfl⟩

/-- C9 witness: a transient verdict for id 1 in a state with counter 3:
CheckedSet and cache are unchanged and the counter becomes 0. -/
theorem transient_excluded_from_checked_witness :
    (mal_scan_step 0 orT st3 1).1.checked = st3.checked ∧
      (mal_scan_step 0 orT st3 1).1.missing = st3.missing ∧
      (mal_scan_step 0 orT st3 1).1.consecutive404 = 0 :=
  transient_excluded_from_checked 0 orT st3 1 (by decide) (by decide)

end Fetch

end MyDubList
